import Mathlib

/-! Shallow embedding of the control-engine ritual-execution core
(`src/state.rs`, `src/ritual.rs`, `src/engine.rs`).

Modelling conventions:
* `f64` values are modelled as `ℚ` (the program only ever adds, multiplies,
  clamps and averages them; no NaN/Inf arise on these paths).
* Machine counters (`u32` evolution counters, `u8` depth levels) are
  modelled as `Nat`; the program treats them as abstract counters.
* Wall-clock instants (`Utc::now()`, `Instant::now()`) are modelled as an
  abstract tick type `Time := Nat`, threaded explicitly into every function
  that stamps a timestamp.
* Fresh UUIDs are threaded in as explicit `String` arguments.
* Rust `HashMap<String, V>` is modelled as an association list
  `List (String × V)`: `insert` replaces the binding of an existing key in
  place, `values_mut` iteration becomes a `map` over the entries.
* The wasmtime sandbox is external code; its observable behaviour at the
  three fallible call sites of `execute_wasm_ritual` (instantiation,
  typed-export lookup, call/trap) plus the returned `i32` is modelled by
  the inductive `WasmOutcome` carried by a loaded `Ritual`.
-/

namespace Codex

abbrev Time := Nat

abbrev Uuid := String

/-- Model of `serde_json::Value` (numbers split into the integer and
floating-point representations that `serde_json` distinguishes). -/
inductive Json where
  | null : Json
  | bool (b : Bool) : Json
  | natNum (n : Nat) : Json
  | num (q : ℚ) : Json
  | str (s : String) : Json
  | arr (elems : List Json) : Json
  | obj (fields : List (String × Json)) : Json

inductive Polarity where
  | Positive | Negative | Neutral | Oscillating
deriving DecidableEq

inductive Element where
  | Fire | Water | Earth | Air | Void | Light | Shadow
deriving DecidableEq

inductive EmbodimentStatus where
  | Conceptual | Emotional | Energetic | Physical | Transcendent
deriving DecidableEq

/-- Model of `state.rs`: `Archetype`. -/
structure Archetype where
  id : Uuid
  name : String
  essence : String
  activation_level : ℚ
  shadow_aspects : List String
  light_aspects : List String
  last_invoked : Option Time
  evolution_count : Nat
deriving DecidableEq

/-- Model of `Archetype::invoke`: raise activation (saturating at 1.0 only), stamp
`last_invoked`, bump the evolution counter. -/
def Archetype.invoke (a : Archetype) (intensity : ℚ) (now : Time) : Archetype :=
  { a with
    activation_level := min (a.activation_level + intensity) 1
    last_invoked := some now
    evolution_count := a.evolution_count + 1 }

/-- Model of `state.rs`: `Energy`. -/
structure Energy where
  id : Uuid
  name : String
  frequency : ℚ
  amplitude : ℚ
  polarity : Polarity
  elemental_association : Element
  last_shifted : Time
deriving DecidableEq

/-- Model of `Energy::modulate`: shift frequency, shift amplitude clamped to
`[0, 1]`, stamp `last_shifted`. -/
def Energy.modulate (e : Energy) (frequency_shift amplitude_shift : ℚ) (now : Time) : Energy :=
  { e with
    frequency := e.frequency + frequency_shift
    amplitude := min (max (e.amplitude + amplitude_shift) 0) 1
    last_shifted := now }

/-- Model of `state.rs`: `Integration`. -/
structure Integration where
  id : Uuid
  name : String
  wisdom : String
  archetypes_involved : List Uuid
  integration_date : Time
  depth_level : Nat
  embodiment_status : EmbodimentStatus
deriving DecidableEq

/-- Model of `state.rs`: `SymbolicState` (the name-keyed `HashMap`s modelled as
association lists). -/
structure SymbolicState where
  archetypes : List (String × Archetype)
  energies : List (String × Energy)
  integrations : List (String × Integration)
  unresolved_symbols : List String
  active_transformations : List String
  last_updated : Time
  evolution_cycle : Nat
deriving DecidableEq

/-- Model of `HashMap::insert`: replace the binding of an existing key, otherwise
add a new one. -/
def alistInsert {α : Type} (k : String) (v : α) : List (String × α) → List (String × α)
  | [] => [(k, v)]
  | p :: ps => if p.1 = k then (k, v) :: ps else p :: alistInsert k v ps

/-- Model of `HashMap::get`: first binding of the key, if any. -/
def alistLookup {α : Type} (k : String) : List (String × α) → Option α
  | [] => none
  | p :: ps => if p.1 = k then some p.2 else alistLookup k ps

/-- Model of `HashMap::get_mut` followed by an update of the found entry. -/
def alistUpdate {α : Type} (k : String) (f : α → α) : List (String × α) → List (String × α)
  | [] => []
  | p :: ps => if p.1 = k then (p.1, f p.2) :: ps else p :: alistUpdate k f ps

/-- Model of `Vec` removal at `iter().position(..)`: drop the first occurrence,
`none` when the element is absent. -/
def removeFirst (t : String) : List String → Option (List String)
  | [] => none
  | x :: xs => if x = t then some xs else (removeFirst t xs).map (x :: ·)

def SymbolicState.add_archetype (s : SymbolicState) (a : Archetype) (now : Time) : SymbolicState :=
  { s with archetypes := alistInsert a.name a s.archetypes, last_updated := now }

def SymbolicState.add_energy (s : SymbolicState) (e : Energy) (now : Time) : SymbolicState :=
  { s with energies := alistInsert e.name e s.energies, last_updated := now }

def SymbolicState.add_integration (s : SymbolicState) (i : Integration) (now : Time) : SymbolicState :=
  { s with integrations := alistInsert i.name i s.integrations, last_updated := now }

def SymbolicState.add_unresolved_symbol (s : SymbolicState) (symbol : String) (now : Time) :
    SymbolicState :=
  { s with unresolved_symbols := s.unresolved_symbols ++ [symbol], last_updated := now }

def SymbolicState.begin_transformation (s : SymbolicState) (transformation : String)
    (now : Time) : SymbolicState :=
  { s with
    active_transformations := s.active_transformations ++ [transformation]
    last_updated := now }

/-- Model of `SymbolicState::complete_transformation`: remove the first occurrence
of the label; only on success bump `evolution_cycle` and `mark_updated`. -/
def SymbolicState.complete_transformation (s : SymbolicState) (transformation : String)
    (now : Time) : Bool × SymbolicState :=
  match removeFirst transformation s.active_transformations with
  | some rest =>
      (true,
        { s with
          active_transformations := rest
          evolution_cycle := s.evolution_cycle + 1
          last_updated := now })
  | none => (false, s)

/-- Model of `lib.rs`: `CodexError` (each variant's payload is the formatted
message it carries). -/
inductive CodexError where
  | RitualNotFound (name : String)
  | StateCorruption (reason : String)
  | WasmExecution (error : String)
  | ReflectionFailed (error : String)
  | Io (msg : String)
  | Serialization (msg : String)
  | Wasm (msg : String)
  | Network (msg : String)
deriving DecidableEq

/-- The `thiserror`-derived `Display` used by `e.to_string()`. -/
def CodexError.to_string : CodexError → String
  | .RitualNotFound name => "Ritual not found: " ++ name
  | .StateCorruption reason => "State corruption detected: " ++ reason
  | .WasmExecution error => "WASM execution failed: " ++ error
  | .ReflectionFailed error => "Reflection failed: " ++ error
  | .Io msg => "IO error: " ++ msg
  | .Serialization msg => "Serialization error: " ++ msg
  | .Wasm msg => "WASM error: " ++ msg
  | .Network msg => "Network error: " ++ msg

/-- Model of `ritual.rs`: `CompletionStatus`. -/
inductive CompletionStatus where
  | Complete
  | PartialIntegration
  | Interrupted
  | Error (reason : String)
deriving DecidableEq

/-- Model of `ritual.rs`: `ChangeType`. -/
inductive ChangeType where
  | ArchetypeActivation | EnergyShift | Integration | SymbolResolution | Transformation
deriving DecidableEq

/-- Model of `ritual.rs`: `StateChange`. -/
structure StateChange where
  change_type : ChangeType
  description : String
  magnitude : ℚ

/-- Model of `ritual.rs`: `RitualDefinition`. -/
structure RitualDefinition where
  name : String
  description : String
  intent : String
  required_archetypes : List String
  energy_requirements : List (String × ℚ)
  wasm_module_path : Option String
  native_handler : Option String
  parameters : List (String × Json)

/-- Model of `ritual.rs`: `RitualResult`. -/
structure RitualResult where
  ritual_name : String
  execution_id : Uuid
  timestamp : Time
  duration_ms : Nat
  symbolic_outputs : List (String × Json)
  state_changes : List StateChange
  emergent_symbols : List String
  completion_status : CompletionStatus
  resonance_level : ℚ

/-- Observable behaviour of one loaded sandbox module at the fallible call
sites of `execute_wasm_ritual`: `Instance::new` failing, the typed lookup
of the `execute_ritual` export failing, the call trapping, or the call
returning an `i32`. -/
inductive WasmOutcome where
  | instantiateError (msg : String)
  | exportError (msg : String)
  | trap (msg : String)
  | success (code : Int)
deriving DecidableEq

/-- Model of `ritual.rs`: `Ritual`. The `wasm_engine`/`wasm_module` option pair
(always set together by the load functions) is modelled as one option
carrying the loaded module's behaviour. -/
structure Ritual where
  definition : RitualDefinition
  wasm_module : Option WasmOutcome

/-- Model of `Ritual::check_archetype_prerequisites`: mean of `activation_level`
over the required names, absent names contributing `0.0`; `1.0` for an
empty requirement list. -/
def Ritual.check_archetype_prerequisites (r : Ritual) (s : SymbolicState) : ℚ :=
  if r.definition.required_archetypes.isEmpty then 1
  else
    (r.definition.required_archetypes.map
        (fun name => ((alistLookup name s.archetypes).map Archetype.activation_level).getD 0)).sum
      / (r.definition.required_archetypes.length : ℚ)

/-- Model of `Ritual::calculate_energy_coherence` (reads only the state). -/
def calculate_energy_coherence (s : SymbolicState) : ℚ :=
  if s.energies.isEmpty then 1/2
  else (s.energies.map (fun p => p.2.amplitude)).sum / (s.energies.length : ℚ)

/-- Model of `Ritual::calculate_integration_depth` (reads only the state). -/
def calculate_integration_depth (s : SymbolicState) : ℚ :=
  if s.integrations.isEmpty then 0
  else (s.integrations.map (fun p => (p.2.depth_level : ℚ) / 10)).sum / (s.integrations.length : ℚ)

/-- Model of `Ritual::calculate_resonance`. -/
def Ritual.calculate_resonance (_r : Ritual) (s : SymbolicState) (archetype_resonance : ℚ) : ℚ :=
  (archetype_resonance + calculate_energy_coherence s + calculate_integration_depth s) / 3

/-- Per-archetype body of the `shadow_integration` loop: when the shadow
list is non-empty and activation exceeds 0.5, pop the last shadow aspect
onto the light list and log one `Integration` change. -/
def shadowStep (a : Archetype) : Archetype × Option StateChange :=
  if ¬a.shadow_aspects.isEmpty ∧ a.activation_level > 1/2 then
    match a.shadow_aspects.getLast? with
    | some shadow =>
        ({ a with
            shadow_aspects := a.shadow_aspects.dropLast
            light_aspects := a.light_aspects ++ ["Integrated: " ++ shadow] },
          some { change_type := .Integration
                 description := "Integrated shadow aspect '" ++ shadow ++ "' of " ++ a.name
                 magnitude := 7/10 })
    | none => (a, none)
  else (a, none)

/-- Model of `Ritual::shadow_integration_ritual`. The Rust loop pushes each change
as it mutates each archetype; modelled as a map over the entries with the
produced changes appended in iteration order. -/
def shadow_integration_ritual (s : SymbolicState) (result : RitualResult) :
    SymbolicState × RitualResult :=
  let processed := s.archetypes.map (fun p => (p.1, shadowStep p.2))
  let changes := processed.filterMap (fun p => p.2.2)
  let shadows_integrated := changes.length
  ({ s with archetypes := processed.map (fun p => (p.1, p.2.1)) },
    { result with
      state_changes := result.state_changes ++ changes
      symbolic_outputs :=
        alistInsert "shadows_integrated" (Json.natNum shadows_integrated) result.symbolic_outputs
      emergent_symbols :=
        result.emergent_symbols ++ if shadows_integrated > 0 then ["🌑→🌕", "∫∂∇"] else [] })

/-- Per-energy body of the `energy_attunement` loop: an energy more than
1.0 away from the 7.83 target is modulated 30% toward it with a 0.1
amplitude boost. -/
def attuneStep (now : Time) (e : Energy) : Energy × Bool :=
  if |e.frequency - 783/100| > 1 then
    (e.modulate ((783/100 - e.frequency) * (3/10)) (1/10) now, true)
  else (e, false)

/-- Model of `Ritual::energy_attunement_ritual`. -/
def energy_attunement_ritual (s : SymbolicState) (result : RitualResult) (now : Time) :
    SymbolicState × RitualResult :=
  let processed := s.energies.map (fun p => (p.1, attuneStep now p.2))
  let changes := processed.filterMap (fun p =>
    if p.2.2 then
      some { change_type := ChangeType.EnergyShift
             description := "Attuned " ++ p.2.1.name ++ " to harmonic frequency"
             magnitude := (1/2 : ℚ) }
    else none)
  let energies_attuned := changes.length
  ({ s with energies := processed.map (fun p => (p.1, p.2.1)) },
    { result with
      state_changes := result.state_changes ++ changes
      symbolic_outputs :=
        alistInsert "energies_attuned" (Json.natNum energies_attuned) result.symbolic_outputs
      emergent_symbols :=
        result.emergent_symbols ++ if energies_attuned > 0 then ["∿∿∿", "⚡→⚡"] else [] })

/-- Model of `Ritual::archetype_invocation_ritual`: invoke each required archetype
present in state with intensity 0.3, logging one change per hit. -/
def archetype_invocation_ritual (defn : RitualDefinition) (s : SymbolicState)
    (result : RitualResult) (now : Time) : SymbolicState × RitualResult :=
  let step := fun (acc : SymbolicState × List StateChange) (name : String) =>
    match alistLookup name acc.1.archetypes with
    | some _ =>
        ({ acc.1 with
            archetypes := alistUpdate name (fun a => a.invoke (3/10) now) acc.1.archetypes },
          acc.2 ++ [{ change_type := ChangeType.ArchetypeActivation
                      description := "Invoked archetype: " ++ name
                      magnitude := (3/5 : ℚ) }])
    | none => acc
  let folded := defn.required_archetypes.foldl step (s, [])
  (folded.1,
    { result with
      state_changes := result.state_changes ++ folded.2
      emergent_symbols := result.emergent_symbols ++ ["🔯", "∆∇∆"] })

/-- Model of `Ritual::void_contemplation_ritual`: add the void symbol, contract all
activations by the factor 0.9 (floored at 0), log one change. -/
def void_contemplation_ritual (s : SymbolicState) (result : RitualResult) (now : Time) :
    SymbolicState × RitualResult :=
  let s1 := s.add_unresolved_symbol "∅" now
  ({ s1 with
      archetypes := s1.archetypes.map (fun p =>
        (p.1, { p.2 with activation_level := max (p.2.activation_level * (9/10)) 0 })) },
    { result with
      state_changes := result.state_changes ++
        [{ change_type := ChangeType.Transformation
           description := "Entered contemplative void state"
           magnitude := (4/5 : ℚ) }]
      emergent_symbols := result.emergent_symbols ++ ["∅", "○", "∞"] })

/-- Model of `Ritual::default_symbolic_ritual`. -/
def default_symbolic_ritual (defn : RitualDefinition) (s : SymbolicState)
    (result : RitualResult) (now : Time) : SymbolicState × RitualResult :=
  let symbol := "◊" ++ defn.name
  (s.add_unresolved_symbol symbol now,
    { result with
      emergent_symbols := result.emergent_symbols ++ [symbol]
      state_changes := result.state_changes ++
        [{ change_type := ChangeType.SymbolResolution
           description := "Generated symbolic marker for " ++ defn.name
           magnitude := (2/5 : ℚ) }] })

/-- Model of `Ritual::process_wasm_result`: interpret the module's `i32` return
code as one emergent symbol (the state argument is ignored by the code). -/
def process_wasm_result (wasm_result : Int) (result : RitualResult) : RitualResult :=
  { result with
    emergent_symbols := result.emergent_symbols ++
      [match wasm_result with
       | 0 => "✓"
       | 1 => "⚡"
       | 2 => "🔄"
       | _ => "?"] }

/-- Model of `Ritual::execute_native_ritual`: string-keyed dispatch on
`native_handler`, any unknown or absent name routing to the default
handler; always returns `Ok(())`. -/
def Ritual.execute_native_ritual (r : Ritual) (s : SymbolicState) (result : RitualResult)
    (now : Time) : SymbolicState × RitualResult :=
  match r.definition.native_handler with
  | some "shadow_integration" => shadow_integration_ritual s result
  | some "energy_attunement" => energy_attunement_ritual s result now
  | some "archetype_invocation" => archetype_invocation_ritual r.definition s result now
  | some "void_contemplation" => void_contemplation_ritual s result now
  | _ => default_symbolic_ritual r.definition s result now

/-- Model of `Ritual::execute_wasm_ritual`: instantiation failures convert through
`From<wasmtime::Error>` into `CodexError::Wasm`; export-lookup failures and
traps are mapped to `CodexError::WasmExecution`; a returned code is fed to
`process_wasm_result`. No state mutation happens before a failure (the
instantiated module has no host imports touching `SymbolicState`). -/
def Ritual.execute_wasm_ritual (_r : Ritual) (outcome : WasmOutcome) (s : SymbolicState)
    (result : RitualResult) : Except CodexError (SymbolicState × RitualResult) :=
  match outcome with
  | .instantiateError msg => .error (.Wasm msg)
  | .exportError msg => .error (.WasmExecution msg)
  | .trap msg => .error (.WasmExecution msg)
  | .success code => .ok (s, process_wasm_result code result)

/-- Model of `Ritual::execute_ritual_logic`: run the sandbox when a module is
loaded (propagating its error with `?`), otherwise the native handler. -/
def Ritual.execute_ritual_logic (r : Ritual) (s : SymbolicState) (result : RitualResult)
    (now : Time) : Except CodexError (SymbolicState × RitualResult) :=
  match r.wasm_module with
  | some outcome => r.execute_wasm_ritual outcome s result
  | none => .ok (r.execute_native_ritual s result now)

/-- The `result` value built at the top of `Ritual::execute`. -/
def Ritual.initial_result (r : Ritual) (execution_id : Uuid) (now : Time) : RitualResult :=
  { ritual_name := r.definition.name
    execution_id := execution_id
    timestamp := now
    duration_ms := 0
    symbolic_outputs := []
    state_changes := []
    emergent_symbols := []
    completion_status := .Complete
    resonance_level := 0 }

/-- The initial result after the prerequisite gate of `Ritual::execute`:
`archetype_resonance < 0.3` marks `PartialIntegration` up front. -/
def Ritual.gated_result (r : Ritual) (s1 : SymbolicState) (execution_id : Uuid)
    (now : Time) : RitualResult :=
  if r.check_archetype_prerequisites s1 < 3/10 then
    { r.initial_result execution_id now with completion_status := .PartialIntegration }
  else r.initial_result execution_id now

/-- The tail of `Ritual::execute` after `execute_ritual_logic` returns:
on `Ok`, stamp the final resonance, complete the transformation and stamp
the duration; on `Err`, the code assigns `Error(e.to_string())` into the
local `result`, drops that result, and returns `Err(e)` with the state as
mutated so far (`s1`). -/
def Ritual.finish_execution (r : Ritual) (label : String) (now : Time) (dur : Nat)
    (archetype_resonance : ℚ) (s1 : SymbolicState) :
    Except CodexError (SymbolicState × RitualResult) →
      Except CodexError RitualResult × SymbolicState
  | .ok (s2, result2) =>
      (.ok { result2 with
              resonance_level := r.calculate_resonance s2 archetype_resonance
              duration_ms := dur },
        (s2.complete_transformation label now).2)
  | .error e => (.error e, s1)

/-- Model of `Ritual::execute`, staged as: begin the transformation, build the
gated initial result, run the ritual logic, finish. -/
def Ritual.execute (r : Ritual) (s : SymbolicState) (execution_id : Uuid) (now : Time)
    (dur : Nat) : Except CodexError RitualResult × SymbolicState :=
  let label := "ritual:" ++ r.definition.name
  let s1 := s.begin_transformation label now
  r.finish_execution label now dur (r.check_archetype_prerequisites s1) s1
    (r.execute_ritual_logic s1 (r.gated_result s1 execution_id now) now)

/-- The `CodexError` that `execute_wasm_ritual` produces for each failing
sandbox outcome (`none` for a successful call). -/
def sandboxError : WasmOutcome → Option CodexError
  | .instantiateError msg => some (.Wasm msg)
  | .exportError msg => some (.WasmExecution msg)
  | .trap msg => some (.WasmExecution msg)
  | .success _ => none

/-- Model of `SymbolicState::new`. -/
def SymbolicState.new (now : Time) : SymbolicState :=
  { archetypes := []
    energies := []
    integrations := []
    unresolved_symbols := []
    active_transformations := []
    last_updated := now
    evolution_cycle := 0 }

def okOr (d : RitualResult) : Except CodexError RitualResult → RitualResult
  | .ok r => r
  | .error _ => d

def isOkE {ε α : Type} : Except ε α → Bool
  | .ok _ => true
  | .error _ => false

/-! Concrete fixtures used by counterexamples and witnesses. -/

def dummyResult : RitualResult :=
  { ritual_name := ""
    execution_id := ""
    timestamp := 0
    duration_ms := 0
    symbolic_outputs := []
    state_changes := []
    emergent_symbols := []
    completion_status := .Complete
    resonance_level := 0 }

def mkDefinition (name : String) (req : List String) (handler : Option String) :
    RitualDefinition :=
  { name := name
    description := ""
    intent := ""
    required_archetypes := req
    energy_requirements := []
    wasm_module_path := none
    native_handler := handler
    parameters := [] }

def test_archetype : Archetype :=
  { id := "a-1"
    name := "Sage"
    essence := "Wisdom"
    activation_level := 0
    shadow_aspects := []
    light_aspects := []
    last_invoked := none
    evolution_count := 0 }

def test_energy (freq : ℚ) : Energy :=
  { id := "e-1"
    name := "Fire"
    frequency := freq
    amplitude := 7/10
    polarity := .Neutral
    elemental_association := .Fire
    last_shifted := 0 }

/-- A ritual whose loaded sandbox module traps, with a perfectly good
native handler configured. -/
def trapRitual : Ritual :=
  { definition := mkDefinition "wasm_rite" [] (some "energy_attunement")
    wasm_module := some (.trap "wasm trap: unreachable") }

/-- A purely native ritual with no registered handler name. -/
def nativeRitual : Ritual :=
  { definition := mkDefinition "custom" [] none
    wasm_module := none }

/-- A native ritual requiring an archetype that will be absent. -/
def gatedRitual : Ritual :=
  { definition := mkDefinition "gated" ["Missing"] (some "archetype_invocation")
    wasm_module := none }

def reqRitual : Ritual :=
  { definition := mkDefinition "with_reqs" ["Sage"] none
    wasm_module := none }

def sageState : SymbolicState :=
  { SymbolicState.new 0 with
    archetypes := [("Sage", { test_archetype with activation_level := 4/5 })] }

def fireState : SymbolicState :=
  { SymbolicState.new 0 with energies := [("Fire", test_energy 10)] }

/-! Model of the derived serde `Serialize`/`Deserialize` instances used by
`CodexEngine::save_state`/`load_state` (`~/.codex/state.json`), at the
JSON-tree level: each struct serializes to an object keyed by its field
names, string maps to objects, vectors to arrays, unit enum variants to
their name strings, `Option` to `null`/value. The deserializer looks
fields up by name and fails on a missing or ill-typed field. -/

def Json.asStr : Json → Option String
  | .str s => some s
  | _ => none

def Json.asNum : Json → Option ℚ
  | .num q => some q
  | _ => none

def Json.asNatNum : Json → Option Nat
  | .natNum n => some n
  | _ => none

/-- Sequential decoding of a list, failing when any element fails. -/
def mapOptionList {α β : Type} (g : α → Option β) : List α → Option (List β)
  | [] => some []
  | x :: xs =>
    match g x with
    | none => none
    | some y => (mapOptionList g xs).map (y :: ·)

def encodeStrList (l : List String) : Json := .arr (l.map Json.str)

def decodeStrList : Json → Option (List String)
  | .arr es => mapOptionList Json.asStr es
  | _ => none

def encodeOptTime : Option Time → Json
  | none => .null
  | some t => .natNum t

def decodeOptTime : Json → Option (Option Time)
  | .null => some none
  | .natNum t => some (some t)
  | _ => none

def encodeMap {α : Type} (f : α → Json) (m : List (String × α)) : Json :=
  .obj (m.map fun p => (p.1, f p.2))

def decodeMap {α : Type} (g : Json → Option α) : Json → Option (List (String × α))
  | .obj fs => mapOptionList (fun p => (g p.2).map (fun a => (p.1, a))) fs
  | _ => none

def Polarity.to_json : Polarity → Json
  | .Positive => .str "Positive"
  | .Negative => .str "Negative"
  | .Neutral => .str "Neutral"
  | .Oscillating => .str "Oscillating"

def Polarity.from_json : Json → Option Polarity
  | .str "Positive" => some .Positive
  | .str "Negative" => some .Negative
  | .str "Neutral" => some .Neutral
  | .str "Oscillating" => some .Oscillating
  | _ => none

def Element.to_json : Element → Json
  | .Fire => .str "Fire"
  | .Water => .str "Water"
  | .Earth => .str "Earth"
  | .Air => .str "Air"
  | .Void => .str "Void"
  | .Light => .str "Light"
  | .Shadow => .str "Shadow"

def Element.from_json : Json → Option Element
  | .str "Fire" => some .Fire
  | .str "Water" => some .Water
  | .str "Earth" => some .Earth
  | .str "Air" => some .Air
  | .str "Void" => some .Void
  | .str "Light" => some .Light
  | .str "Shadow" => some .Shadow
  | _ => none

def EmbodimentStatus.to_json : EmbodimentStatus → Json
  | .Conceptual => .str "Conceptual"
  | .Emotional => .str "Emotional"
  | .Energetic => .str "Energetic"
  | .Physical => .str "Physical"
  | .Transcendent => .str "Transcendent"

def EmbodimentStatus.from_json : Json → Option EmbodimentStatus
  | .str "Conceptual" => some .Conceptual
  | .str "Emotional" => some .Emotional
  | .str "Energetic" => some .Energetic
  | .str "Physical" => some .Physical
  | .str "Transcendent" => some .Transcendent
  | _ => none

def Archetype.to_json (a : Archetype) : Json :=
  .obj [("id", .str a.id), ("name", .str a.name), ("essence", .str a.essence),
    ("activation_level", .num a.activation_level),
    ("shadow_aspects", encodeStrList a.shadow_aspects),
    ("light_aspects", encodeStrList a.light_aspects),
    ("last_invoked", encodeOptTime a.last_invoked),
    ("evolution_count", .natNum a.evolution_count)]

def Archetype.from_json : Json → Option Archetype
  | .obj fs => do
    let id ← (alistLookup "id" fs).bind Json.asStr
    let name ← (alistLookup "name" fs).bind Json.asStr
    let essence ← (alistLookup "essence" fs).bind Json.asStr
    let activation_level ← (alistLookup "activation_level" fs).bind Json.asNum
    let shadow_aspects ← (alistLookup "shadow_aspects" fs).bind decodeStrList
    let light_aspects ← (alistLookup "light_aspects" fs).bind decodeStrList
    let last_invoked ← (alistLookup "last_invoked" fs).bind decodeOptTime
    let evolution_count ← (alistLookup "evolution_count" fs).bind Json.asNatNum
    some { id, name, essence, activation_level, shadow_aspects, light_aspects,
           last_invoked, evolution_count }
  | _ => none

def Energy.to_json (e : Energy) : Json :=
  .obj [("id", .str e.id), ("name", .str e.name), ("frequency", .num e.frequency),
    ("amplitude", .num e.amplitude), ("polarity", e.polarity.to_json),
    ("elemental_association", e.elemental_association.to_json),
    ("last_shifted", .natNum e.last_shifted)]

def Energy.from_json : Json → Option Energy
  | .obj fs => do
    let id ← (alistLookup "id" fs).bind Json.asStr
    let name ← (alistLookup "name" fs).bind Json.asStr
    let frequency ← (alistLookup "frequency" fs).bind Json.asNum
    let amplitude ← (alistLookup "amplitude" fs).bind Json.asNum
    let polarity ← (alistLookup "polarity" fs).bind Polarity.from_json
    let elemental_association ←
      (alistLookup "elemental_association" fs).bind Element.from_json
    let last_shifted ← (alistLookup "last_shifted" fs).bind Json.asNatNum
    some { id, name, frequency, amplitude, polarity, elemental_association, last_shifted }
  | _ => none

def Integration.to_json (i : Integration) : Json :=
  .obj [("id", .str i.id), ("name", .str i.name), ("wisdom", .str i.wisdom),
    ("archetypes_involved", encodeStrList i.archetypes_involved),
    ("integration_date", .natNum i.integration_date),
    ("depth_level", .natNum i.depth_level),
    ("embodiment_status", i.embodiment_status.to_json)]

def Integration.from_json : Json → Option Integration
  | .obj fs => do
    let id ← (alistLookup "id" fs).bind Json.asStr
    let name ← (alistLookup "name" fs).bind Json.asStr
    let wisdom ← (alistLookup "wisdom" fs).bind Json.asStr
    let archetypes_involved ← (alistLookup "archetypes_involved" fs).bind decodeStrList
    let integration_date ← (alistLookup "integration_date" fs).bind Json.asNatNum
    let depth_level ← (alistLookup "depth_level" fs).bind Json.asNatNum
    let embodiment_status ←
      (alistLookup "embodiment_status" fs).bind EmbodimentStatus.from_json
    some { id, name, wisdom, archetypes_involved, integration_date, depth_level,
           embodiment_status }
  | _ => none

/-- Model of `CodexEngine::save_state`: the persisted form of the whole state. -/
def SymbolicState.to_json (s : SymbolicState) : Json :=
  .obj [("archetypes", encodeMap Archetype.to_json s.archetypes),
    ("energies", encodeMap Energy.to_json s.energies),
    ("integrations", encodeMap Integration.to_json s.integrations),
    ("unresolved_symbols", encodeStrList s.unresolved_symbols),
    ("active_transformations", encodeStrList s.active_transformations),
    ("last_updated", .natNum s.last_updated),
    ("evolution_cycle", .natNum s.evolution_cycle)]

/-- Model of `CodexEngine::load_state`: reading the persisted form back. -/
def SymbolicState.from_json : Json → Option SymbolicState
  | .obj fs => do
    let archetypes ← (alistLookup "archetypes" fs).bind (decodeMap Archetype.from_json)
    let energies ← (alistLookup "energies" fs).bind (decodeMap Energy.from_json)
    let integrations ← (alistLookup "integrations" fs).bind (decodeMap Integration.from_json)
    let unresolved_symbols ← (alistLookup "unresolved_symbols" fs).bind decodeStrList
    let active_transformations ←
      (alistLookup "active_transformations" fs).bind decodeStrList
    let last_updated ← (alistLookup "last_updated" fs).bind Json.asNatNum
    let evolution_cycle ← (alistLookup "evolution_cycle" fs).bind Json.asNatNum
    some { archetypes, energies, integrations, unresolved_symbols,
           active_transformations, last_updated, evolution_cycle }
  | _ => none

/-- Iterated `Archetype::invoke` with per-call intensities and instants. -/
def Archetype.invoke_seq (a : Archetype) : List (ℚ × Time) → Archetype
  | [] => a
  | p :: ps => Archetype.invoke_seq (a.invoke p.1 p.2) ps

/-! Theorems settling the specification claims. -/

lemma removeFirst_eq_none_iff (t : String) (l : List String) :
    removeFirst t l = none ↔ t ∉ l := by
  induction l with
  | nil => simp [removeFirst]
  | cons x xs ih =>
    by_cases hx : x = t
    · subst hx; simp [removeFirst]
    · simp only [removeFirst, hx, if_false, Option.map_eq_none', ih, List.mem_cons]
      constructor
      · intro hn h; rcases h with h | h
        · exact hx h.symm
        · exact hn h
      · intro hn; exact fun h => hn (Or.inr h)

lemma removeFirst_mem (t : String) (l : List String) (h : t ∈ l) :
    removeFirst t l = some (l.erase t) := by
  induction l with
  | nil => cases h
  | cons x xs ih =>
    by_cases hx : x = t
    · subst hx; simp [removeFirst, List.erase_cons_head]
    · rcases List.mem_cons.mp h with h1 | h2
      · exact absurd h1.symm hx
      · simp [removeFirst, hx, List.erase_cons, ih h2]

/-- C3: `complete_transformation(label)` returns `false` and leaves the
state (including `evolution_cycle`) unchanged when the label is not in
the active-transformation list; when the label is present it returns
`true`, removes the first occurrence of the label, increments
`evolution_cycle` by exactly 1 (and refreshes `last_updated`, the only
other field touched). -/
theorem complete_transformation_spec (s : SymbolicState) (t : String) (now : Time) :
    s.complete_transformation t now =
      if t ∈ s.active_transformations then
        (true,
          { s with
            active_transformations := s.active_transformations.erase t
            evolution_cycle := s.evolution_cycle + 1
            last_updated := now })
      else (false, s) := by
  by_cases h : t ∈ s.active_transformations
  · simp [SymbolicState.complete_transformation, removeFirst_mem t _ h, h]
  · simp [SymbolicState.complete_transformation, (removeFirst_eq_none_iff t _).mpr h, h]

/-- C4 counterexample: an archetype at the documented lower bound 0 is
pushed to activation −1 by a single `invoke` with intensity −1 — `invoke`
only saturates at the top (`.min(1.0)`), it never clamps from below, so
the claimed invariant fails for negative intensities. -/
theorem invoke_negative_intensity_counterexample :
    0 ≤ test_archetype.activation_level ∧ test_archetype.activation_level ≤ 1 ∧
      (test_archetype.invoke (-1) 0).activation_level = -1 ∧
      ¬0 ≤ (test_archetype.invoke (-1) 0).activation_level := by
  refine ⟨le_refl 0, by norm_num [test_archetype], ?_, ?_⟩ <;>
    norm_num [test_archetype, Archetype.invoke]

/-- C4 (amended): starting from an activation level in `[0,1]`, any finite
sequence of `invoke` calls with *nonnegative* intensities keeps
`activation_level` within `[0,1]`, and `evolution_count` grows by exactly
one per call. -/
theorem invoke_seq_bounds (a : Archetype) (l : List (ℚ × Time))
    (h0 : 0 ≤ a.activation_level) (h1 : a.activation_level ≤ 1)
    (hpos : ∀ p ∈ l, 0 ≤ p.1) :
    0 ≤ (a.invoke_seq l).activation_level ∧ (a.invoke_seq l).activation_level ≤ 1 ∧
      (a.invoke_seq l).evolution_count = a.evolution_count + l.length := by
  induction l generalizing a with
  | nil => exact ⟨h0, h1, rfl⟩
  | cons p ps ih =>
    have hp : 0 ≤ p.1 := hpos p (List.mem_cons_self _ _)
    have h0' : 0 ≤ (a.invoke p.1 p.2).activation_level := by
      simp only [Archetype.invoke]
      exact le_min (by linarith) (by norm_num)
    have h1' : (a.invoke p.1 p.2).activation_level ≤ 1 := min_le_right _ _
    have hrec := ih (a.invoke p.1 p.2) h0' h1'
      (fun q hq => hpos q (List.mem_cons_of_mem _ hq))
    refine ⟨hrec.1, hrec.2.1, ?_⟩
    have : (a.invoke p.1 p.2).evolution_count = a.evolution_count + 1 := rfl
    simp only [Archetype.invoke_seq, hrec.2.2, this, List.length_cons]
    omega

/-- C4 witness: a concrete two-step invocation sequence from the zero
archetype stays within bounds and counts both calls. -/
theorem invoke_seq_bounds_witness :
    0 ≤ (test_archetype.invoke_seq [(1/2, 1), (3/4, 2)]).activation_level ∧
      (test_archetype.invoke_seq [(1/2, 1), (3/4, 2)]).activation_level ≤ 1 ∧
      (test_archetype.invoke_seq [(1/2, 1), (3/4, 2)]).evolution_count =
        test_archetype.evolution_count + 2 :=
  invoke_seq_bounds test_archetype [(1/2, 1), (3/4, 2)] (le_refl 0)
    (by norm_num [test_archetype]) (by norm_num)

lemma execute_eq (r : Ritual) (s : SymbolicState) (execution_id : Uuid) (now : Time)
    (dur : Nat) :
    r.execute s execution_id now dur =
      r.finish_execution ("ritual:" ++ r.definition.name) now dur
        (r.check_archetype_prerequisites s)
        (s.begin_transformation ("ritual:" ++ r.definition.name) now)
        (r.execute_ritual_logic (s.begin_transformation ("ritual:" ++ r.definition.name) now)
          (r.gated_result (s.begin_transformation ("ritual:" ++ r.definition.name) now)
            execution_id now)
          now) := rfl

lemma execute_native_ritual_status (r : Ritual) (s : SymbolicState) (result : RitualResult)
    (now : Time) :
    (r.execute_native_ritual s result now).2.completion_status = result.completion_status := by
  unfold Ritual.execute_native_ritual
  split <;> rfl

lemma execute_ritual_logic_status (r : Ritual) (s : SymbolicState) (result : RitualResult)
    (now : Time) (s2 : SymbolicState) (result2 : RitualResult)
    (h : r.execute_ritual_logic s result now = .ok (s2, result2)) :
    result2.completion_status = result.completion_status := by
  unfold Ritual.execute_ritual_logic at h
  cases hw : r.wasm_module with
  | none =>
    rw [hw] at h
    injection h with h'
    have h2 : result2 = (r.execute_native_ritual s result now).2 :=
      congrArg Prod.snd h'.symm
    rw [h2, execute_native_ritual_status]
  | some o =>
    rw [hw] at h
    unfold Ritual.execute_wasm_ritual at h
    cases o with
    | instantiateError m => simp at h
    | exportError m => simp at h
    | trap m => simp at h
    | success code =>
      injection h with h'
      have h2 : result2 = process_wasm_result code result :=
        (congrArg Prod.snd h').symm
      rw [h2]; rfl

lemma gated_result_status (r : Ritual) (s1 : SymbolicState) (execution_id : Uuid)
    (now : Time) :
    (r.gated_result s1 execution_id now).completion_status =
      if r.check_archetype_prerequisites s1 < 3/10 then CompletionStatus.PartialIntegration
      else .Complete := by
  unfold Ritual.gated_result
  split <;> rfl

lemma complete_transformation_preserves (s : SymbolicState) (t : String) (now : Time) :
    ((s.complete_transformation t now).2).energies = s.energies ∧
      ((s.complete_transformation t now).2).integrations = s.integrations ∧
      ((s.complete_transformation t now).2).archetypes = s.archetypes := by
  unfold SymbolicState.complete_transformation
  cases removeFirst t s.active_transformations <;> simp

lemma coherence_complete (s : SymbolicState) (t : String) (now : Time) :
    calculate_energy_coherence ((s.complete_transformation t now).2) =
      calculate_energy_coherence s := by
  unfold calculate_energy_coherence
  rw [(complete_transformation_preserves s t now).1]

lemma depth_complete (s : SymbolicState) (t : String) (now : Time) :
    calculate_integration_depth ((s.complete_transformation t now).2) =
      calculate_integration_depth s := by
  unfold calculate_integration_depth
  rw [(complete_transformation_preserves s t now).2.1]

/-- On any failing sandbox outcome, `execute` returns that failure as
`Err` and the state exactly as left by `begin_transformation`. -/
lemma execute_wasm_failure_eq (r : Ritual) (s : SymbolicState) (execution_id : Uuid)
    (now : Time) (dur : Nat) (o : WasmOutcome) (e : CodexError)
    (hmod : r.wasm_module = some o) (herr : sandboxError o = some e) :
    r.execute s execution_id now dur =
      (.error e, s.begin_transformation ("ritual:" ++ r.definition.name) now) := by
  rw [execute_eq]
  have hlogic :
      r.execute_ritual_logic (s.begin_transformation ("ritual:" ++ r.definition.name) now)
        (r.gated_result (s.begin_transformation ("ritual:" ++ r.definition.name) now)
          execution_id now) now = .error e := by
    unfold Ritual.execute_ritual_logic
    rw [hmod]
    unfold Ritual.execute_wasm_ritual
    cases o <;> simp_all [sandboxError]
  rw [hlogic]
  rfl

/-- C1 counterexample: a loaded sandbox module that traps makes `execute`
return the sandbox error (`WasmExecution`) to its caller, even though a
native handler (`energy_attunement`) is configured — there is no fallback
and the error is propagated. -/
theorem sandbox_error_reaches_caller :
    (trapRitual.execute (SymbolicState.new 0) "exec-1" 0 5).1 =
      .error (.WasmExecution "wasm trap: unreachable") ∧
      (trapRitual.execute (SymbolicState.new 0) "exec-1" 0 5).2.unresolved_symbols = [] :=
  ⟨rfl, rfl⟩

/-- C1 (amended): any failure of the sandboxed execution (load/
instantiation failure, missing export, trap) is converted into a
`CodexError` and returned as `Err` to the caller of `execute`; the native
handler named by `native_handler` is not invoked as a fallback — the
state is exactly as `begin_transformation` left it. -/
theorem execute_sandbox_failure_propagates (r : Ritual) (s : SymbolicState)
    (execution_id : Uuid) (now : Time) (dur : Nat) (o : WasmOutcome) (e : CodexError)
    (hmod : r.wasm_module = some o) (herr : sandboxError o = some e) :
    (r.execute s execution_id now dur).1 = .error e ∧
      (r.execute s execution_id now dur).2 =
        s.begin_transformation ("ritual:" ++ r.definition.name) now := by
  rw [execute_wasm_failure_eq r s execution_id now dur o e hmod herr]
  exact ⟨rfl, rfl⟩

/-- C1 witness: the amended statement at the concrete trapping ritual. -/
theorem execute_sandbox_failure_propagates_witness :
    (trapRitual.execute sageState "exec-1w" 3 5).1 =
        .error (.WasmExecution "wasm trap: unreachable") ∧
      (trapRitual.execute sageState "exec-1w" 3 5).2 =
        sageState.begin_transformation ("ritual:" ++ trapRitual.definition.name) 3 :=
  execute_sandbox_failure_propagates trapRitual sageState "exec-1w" 3 5
    (.trap "wasm trap: unreachable") (.WasmExecution "wasm trap: unreachable") rfl rfl

/-- C2 counterexample: when the ritual logic faults, the caller gets `Err`
— not a `RitualResult` — and the transformation label `"ritual:wasm_rite"`
is *not* completed: it stays in the active list and `evolution_cycle`
stays 0. -/
theorem fault_returns_no_result :
    isOkE (trapRitual.execute (SymbolicState.new 0) "exec-2" 0 5).1 = false ∧
      (trapRitual.execute (SymbolicState.new 0) "exec-2" 0 5).2.evolution_cycle = 0 ∧
      (trapRitual.execute (SymbolicState.new 0) "exec-2" 0 5).2.active_transformations =
        ["ritual:wasm_rite"] :=
  ⟨rfl, rfl, rfl⟩

/-- C2 (amended): when the ritual logic raises a fault, `execute` returns
`Err(e)` (no `RitualResult` reaches the caller), the transformation label
`"ritual:<name>"` remains in the active list, and `evolution_cycle` is
left unchanged — the transformation is not marked complete on the error
path. -/
theorem execute_fault_bookkeeping (r : Ritual) (s : SymbolicState) (execution_id : Uuid)
    (now : Time) (dur : Nat) (o : WasmOutcome) (e : CodexError)
    (hmod : r.wasm_module = some o) (herr : sandboxError o = some e) :
    isOkE (r.execute s execution_id now dur).1 = false ∧
      (r.execute s execution_id now dur).2.evolution_cycle = s.evolution_cycle ∧
      (r.execute s execution_id now dur).2.active_transformations =
        s.active_transformations ++ ["ritual:" ++ r.definition.name] := by
  rw [execute_wasm_failure_eq r s execution_id now dur o e hmod herr]
  exact ⟨rfl, rfl, rfl⟩

/-- C2 witness: the amended statement at the concrete trapping ritual. -/
theorem execute_fault_bookkeeping_witness :
    isOkE (trapRitual.execute sageState "exec-2w" 3 5).1 = false ∧
      (trapRitual.execute sageState "exec-2w" 3 5).2.evolution_cycle =
        sageState.evolution_cycle ∧
      (trapRitual.execute sageState "exec-2w" 3 5).2.active_transformations =
        sageState.active_transformations ++ ["ritual:" ++ trapRitual.definition.name] :=
  execute_fault_bookkeeping trapRitual sageState "exec-2w" 3 5
    (.trap "wasm trap: unreachable") (.WasmExecution "wasm trap: unreachable") rfl rfl

/-- Elimination principle for a successful `execute`: it exhibits the
state/result pair produced by `execute_ritual_logic` and expresses the
returned result and final state in terms of it. -/
lemma execute_ok_elim (r : Ritual) (s : SymbolicState) (execution_id : Uuid) (now : Time)
    (dur : Nat) (res : RitualResult) (h : (r.execute s execution_id now dur).1 = .ok res) :
    ∃ s2 result2,
      r.execute_ritual_logic (s.begin_transformation ("ritual:" ++ r.definition.name) now)
          (r.gated_result (s.begin_transformation ("ritual:" ++ r.definition.name) now)
            execution_id now) now = .ok (s2, result2) ∧
        res = { result2 with
                duration_ms := dur
                resonance_level :=
                  r.calculate_resonance s2 (r.check_archetype_prerequisites s) } ∧
        (r.execute s execution_id now dur).2 =
          (s2.complete_transformation ("ritual:" ++ r.definition.name) now).2 := by
  rw [execute_eq] at h ⊢
  set E := r.execute_ritual_logic
    (s.begin_transformation ("ritual:" ++ r.definition.name) now)
    (r.gated_result (s.begin_transformation ("ritual:" ++ r.definition.name) now)
      execution_id now) now with hE
  clear_value E
  cases E with
  | error e => simp [Ritual.finish_execution] at h
  | ok v =>
    obtain ⟨s2, result2⟩ := v
    refine ⟨s2, result2, rfl, ?_, ?_⟩
    · simp only [Ritual.finish_execution] at h
      injection h with h'
      exact h'.symm
    · simp only [Ritual.finish_execution]

/-- C5: every successful execution returns
`resonance = (archetype_resonance + energy_coherence + integration_depth) / 3`,
with `energy_coherence` the mean amplitude over the energies of the
resulting state (0.5 when there are none) and `integration_depth` the
mean `depth_level/10` over its integrations (0.0 when there are none). -/
theorem execute_resonance_formula (r : Ritual) (s : SymbolicState) (execution_id : Uuid)
    (now : Time) (dur : Nat) (res : RitualResult)
    (h : (r.execute s execution_id now dur).1 = .ok res) :
    res.resonance_level =
      (r.check_archetype_prerequisites s
        + calculate_energy_coherence (r.execute s execution_id now dur).2
        + calculate_integration_depth (r.execute s execution_id now dur).2) / 3 := by
  obtain ⟨s2, result2, hE, hres, hsnd⟩ := execute_ok_elim r s execution_id now dur res h
  rw [hres, hsnd]
  simp [Ritual.calculate_resonance, coherence_complete, depth_complete]

def resultC5 : RitualResult := okOr dummyResult (nativeRitual.execute fireState "exec-5" 3 4).1

/-- C5 witness: a concrete native execution, with its result named
explicitly. -/
theorem execute_resonance_formula_witness :
    (nativeRitual.execute fireState "exec-5" 3 4).1 = .ok resultC5 ∧
      resultC5.resonance_level =
        (nativeRitual.check_archetype_prerequisites fireState
          + calculate_energy_coherence (nativeRitual.execute fireState "exec-5" 3 4).2
          + calculate_integration_depth (nativeRitual.execute fireState "exec-5" 3 4).2) / 3 :=
  ⟨rfl, execute_resonance_formula nativeRitual fireState "exec-5" 3 4 resultC5 rfl⟩

/-- C7: on a non-faulting execution, `archetype_resonance < 0.3` forces
`completion_status = PartialIntegration` regardless of what the handler
did; and a ritual requiring exactly one archetype absent from state has
`archetype_resonance = 0` and therefore lands in `PartialIntegration`. -/
theorem execute_partial_integration_gate (r : Ritual) (s : SymbolicState)
    (execution_id : Uuid) (now : Time) (dur : Nat) (res : RitualResult)
    (h : (r.execute s execution_id now dur).1 = .ok res) :
    (r.check_archetype_prerequisites s < 3/10 →
      res.completion_status = .PartialIntegration) ∧
    (∀ n, r.definition.required_archetypes = [n] → alistLookup n s.archetypes = none →
      r.check_archetype_prerequisites s = 0 ∧
        res.completion_status = .PartialIntegration) := by
  have hstat : res.completion_status =
      if r.check_archetype_prerequisites s < 3/10 then CompletionStatus.PartialIntegration
      else .Complete := by
    obtain ⟨s2, result2, hE, hres, _⟩ := execute_ok_elim r s execution_id now dur res h
    rw [hres]
    show result2.completion_status = _
    rw [execute_ritual_logic_status r _ _ now s2 result2 hE, gated_result_status]
    rfl
  constructor
  · intro hlow
    rw [hstat]
    simp [hlow]
  · intro n hn hnone
    have hz : r.check_archetype_prerequisites s = 0 := by
      simp [Ritual.check_archetype_prerequisites, hn, hnone]
    refine ⟨hz, ?_⟩
    rw [hstat, hz]
    norm_num

def resultC7 : RitualResult := okOr dummyResult (gatedRitual.execute sageState "exec-7" 2 9).1

/-- C7 witness: a ritual requiring the absent archetype `"Missing"` over a
concrete state yields resonance 0 and partial integration. -/
theorem execute_partial_integration_gate_witness :
    (gatedRitual.execute sageState "exec-7" 2 9).1 = .ok resultC7 ∧
      gatedRitual.check_archetype_prerequisites sageState = 0 ∧
      resultC7.completion_status = .PartialIntegration :=
  ⟨rfl,
    ((execute_partial_integration_gate gatedRitual sageState "exec-7" 2 9 resultC7 rfl).2
      "Missing" rfl rfl).1,
    ((execute_partial_integration_gate gatedRitual sageState "exec-7" 2 9 resultC7 rfl).2
      "Missing" rfl rfl).2⟩

/-- C9: with no loaded sandbox module, `execute` always succeeds — native
dispatch never faults for any `native_handler` value — and the returned
completion status is only ever `Complete` or `PartialIntegration`. -/
theorem execute_native_total (r : Ritual) (s : SymbolicState) (execution_id : Uuid)
    (now : Time) (dur : Nat) (h : r.wasm_module = none) :
    isOkE (r.execute s execution_id now dur).1 = true ∧
      ((okOr dummyResult (r.execute s execution_id now dur).1).completion_status =
          .Complete ∨
        (okOr dummyResult (r.execute s execution_id now dur).1).completion_status =
          .PartialIntegration) := by
  rw [execute_eq]
  have hlogic : r.execute_ritual_logic
      (s.begin_transformation ("ritual:" ++ r.definition.name) now)
      (r.gated_result (s.begin_transformation ("ritual:" ++ r.definition.name) now)
        execution_id now) now =
      .ok (r.execute_native_ritual
        (s.begin_transformation ("ritual:" ++ r.definition.name) now)
        (r.gated_result (s.begin_transformation ("ritual:" ++ r.definition.name) now)
          execution_id now) now) := by
    unfold Ritual.execute_ritual_logic
    rw [h]
  rw [hlogic]
  simp only [Ritual.finish_execution, okOr, isOkE]
  refine ⟨trivial, ?_⟩
  show (r.execute_native_ritual _ _ now).2.completion_status = _ ∨
    (r.execute_native_ritual _ _ now).2.completion_status = _
  rw [execute_native_ritual_status, gated_result_status]
  split
  · exact Or.inr rfl
  · exact Or.inl rfl

/-- C9 witness: the concrete unknown-handler native ritual succeeds with a
Complete-or-partial status. -/
theorem execute_native_total_witness :
    isOkE (nativeRitual.execute fireState "exec-9" 2 6).1 = true ∧
      ((okOr dummyResult (nativeRitual.execute fireState "exec-9" 2 6).1).completion_status =
          .Complete ∨
        (okOr dummyResult (nativeRitual.execute fireState "exec-9" 2 6).1).completion_status =
          .PartialIntegration) :=
  execute_native_total nativeRitual fireState "exec-9" 2 6 rfl

/-- C6: `archetype_resonance` is the mean of `activation_level` over the
required names (a name absent from the state's archetype map contributing
`0.0`), and exactly `1.0` when the requirement list is empty. -/
theorem check_archetype_prerequisites_spec (r : Ritual) (s : SymbolicState) :
    (r.definition.required_archetypes = [] → r.check_archetype_prerequisites s = 1) ∧
      (r.definition.required_archetypes ≠ [] →
        r.check_archetype_prerequisites s =
          (r.definition.required_archetypes.map (fun n =>
              match alistLookup n s.archetypes with
              | some a => a.activation_level
              | none => 0)).sum
            / (r.definition.required_archetypes.length : ℚ)) := by
  constructor
  · intro h
    simp [Ritual.check_archetype_prerequisites, h]
  · intro h
    have hpt : ∀ n : String,
        ((alistLookup n s.archetypes).map Archetype.activation_level).getD 0 =
          match alistLookup n s.archetypes with
          | some a => a.activation_level
          | none => 0 := by
      intro n
      cases alistLookup n s.archetypes <;> rfl
    simp [Ritual.check_archetype_prerequisites, h, hpt]

/-- C6 witness: a singleton requirement over a state holding that
archetype at activation 0.8. -/
theorem check_archetype_prerequisites_spec_witness :
    reqRitual.definition.required_archetypes ≠ [] ∧
      reqRitual.check_archetype_prerequisites sageState =
        (reqRitual.definition.required_archetypes.map (fun n =>
            match alistLookup n sageState.archetypes with
            | some a => a.activation_level
            | none => 0)).sum
          / (reqRitual.definition.required_archetypes.length : ℚ) :=
  ⟨by decide, (check_archetype_prerequisites_spec reqRitual sageState).2 (by decide)⟩

/-- C10: in the energy-attunement handler, every energy whose frequency
differs from 7.83 by more than 1.0 has its frequency shifted by
`(7.83 − frequency) × 0.3`, its amplitude raised by 0.1 clamped to
`[0, 1]`, and its last-shifted timestamp set to the current instant;
an energy within 1.0 of 7.83 is carried over entirely unchanged. -/
theorem energy_attunement_pointwise (s : SymbolicState) (result : RitualResult) (now : Time)
    (k : String) (e : Energy) (h : (k, e) ∈ s.energies) :
    (k,
      if |e.frequency - 783/100| > 1 then
        { e with
          frequency := e.frequency + (783/100 - e.frequency) * (3/10)
          amplitude := min (max (e.amplitude + 1/10) 0) 1
          last_shifted := now }
      else e) ∈ (energy_attunement_ritual s result now).1.energies := by
  have hener : (energy_attunement_ritual s result now).1.energies =
      s.energies.map (fun p => (p.1, (attuneStep now p.2).1)) := by
    simp [energy_attunement_ritual, List.map_map]
  have hval : (attuneStep now e).1 =
      (if |e.frequency - 783/100| > 1 then
        { e with
          frequency := e.frequency + (783/100 - e.frequency) * (3/10)
          amplitude := min (max (e.amplitude + 1/10) 0) 1
          last_shifted := now }
      else e) := by
    unfold attuneStep Energy.modulate
    split <;> rfl
  rw [hener, ← hval]
  exact List.mem_map_of_mem (fun p => (p.1, (attuneStep now p.2).1)) h

/-- C10 witness: the Fire energy at frequency 10 (2.17 away from target)
is attuned in the concrete one-energy state. -/
theorem energy_attunement_pointwise_witness :
    ("Fire",
      if |(test_energy 10).frequency - 783/100| > 1 then
        { test_energy 10 with
          frequency := (test_energy 10).frequency
            + (783/100 - (test_energy 10).frequency) * (3/10)
          amplitude := min (max ((test_energy 10).amplitude + 1/10) 0) 1
          last_shifted := 7 }
      else test_energy 10) ∈ (energy_attunement_ritual fireState dummyResult 7).1.energies :=
  energy_attunement_pointwise fireState dummyResult 7 "Fire" (test_energy 10)
    (List.mem_singleton.mpr rfl)

lemma mapOptionList_map {α β : Type} (f : α → β) (g : β → Option α)
    (hfg : ∀ a, g (f a) = some a) (l : List α) :
    mapOptionList g (l.map f) = some l := by
  induction l with
  | nil => rfl
  | cons x xs ih => simp [mapOptionList, hfg, ih]

lemma decodeStrList_encodeStrList (l : List String) :
    decodeStrList (encodeStrList l) = some l := by
  show mapOptionList Json.asStr (l.map Json.str) = some l
  exact mapOptionList_map Json.str Json.asStr (fun _ => rfl) l

lemma decodeMap_encodeMap {α : Type} (f : α → Json) (g : Json → Option α)
    (hfg : ∀ a, g (f a) = some a) (m : List (String × α)) :
    decodeMap g (encodeMap f m) = some m := by
  show mapOptionList (fun p => (g p.2).map (fun a => (p.1, a)))
    (m.map (fun p => (p.1, f p.2))) = some m
  exact mapOptionList_map _ _ (fun p => by simp [hfg]) m

lemma polarity_round_trip (p : Polarity) : Polarity.from_json p.to_json = some p := by
  cases p <;> rfl

lemma element_round_trip (e : Element) : Element.from_json e.to_json = some e := by
  cases e <;> rfl

lemma embodiment_round_trip (e : EmbodimentStatus) :
    EmbodimentStatus.from_json e.to_json = some e := by
  cases e <;> rfl

lemma optTime_round_trip (o : Option Time) : decodeOptTime (encodeOptTime o) = some o := by
  cases o <;> rfl

lemma archetype_round_trip (a : Archetype) : Archetype.from_json a.to_json = some a := by
  simp [Archetype.to_json, Archetype.from_json, alistLookup, Json.asStr, Json.asNum,
    Json.asNatNum, decodeStrList_encodeStrList, optTime_round_trip]

lemma energy_round_trip (e : Energy) : Energy.from_json e.to_json = some e := by
  simp [Energy.to_json, Energy.from_json, alistLookup, Json.asStr, Json.asNum,
    Json.asNatNum, polarity_round_trip, element_round_trip]

lemma integration_round_trip (i : Integration) : Integration.from_json i.to_json = some i := by
  simp [Integration.to_json, Integration.from_json, alistLookup, Json.asStr,
    Json.asNatNum, decodeStrList_encodeStrList, embodiment_round_trip]

/-- C8: serializing a `SymbolicState` to its persisted form
(`save_state`'s serde JSON) and reloading it (`load_state`) reproduces
the state exactly — in particular the archetype, energy, and integration
maps and the unresolved-symbol and active-transformation lists. -/
theorem state_persistence_round_trip (s : SymbolicState) :
    SymbolicState.from_json s.to_json = some s := by
  simp [SymbolicState.to_json, SymbolicState.from_json, alistLookup, Json.asNatNum,
    decodeStrList_encodeStrList,
    decodeMap_encodeMap Archetype.to_json Archetype.from_json archetype_round_trip,
    decodeMap_encodeMap Energy.to_json Energy.from_json energy_round_trip,
    decodeMap_encodeMap Integration.to_json Integration.from_json integration_round_trip]

end Codex


